import Mathlib

/-!
Verification of the template-resolution and safe-materialization pipeline of
`react-cli-boilerplate` (src/index.js).  The source file contains two variants
of the tool: the first (namespace `V1`) validates a template name by
filesystem confinement (realpath containment, existence, directory and
manifest checks) and fetches a fixed remote coordinate; the second
(namespace `V2`) validates against the allow-list `["base", "redux"]`,
guards the destination (existence then parent writability) and rolls back the
destination on fetch failure, fetching a coordinate parameterized by the
resolved template.

JavaScript primitives are modelled shallowly: strings are Lean `String`
(`trim`/`toLowerCase` restricted to ASCII behaviour), a possibly-undefined
string argument is `Option String`, filesystem observations are oracle
functions packaged in a state record, and each orchestrator run is a pure
function from that state plus the CLI arguments and prompt answers to an
outcome record (emitted events, exit code, whether the destination exists at
the end, the resolved template and the coordinate passed to the fetch
collaborator, `none` when the fetch was never invoked).
-/

namespace ReactCLI

/-- ASCII whitespace as removed by `String.prototype.trim` (ASCII subset). -/
def isJsWs (c : Char) : Bool :=
  decide (c = ' ' ∨ c = '\t' ∨ c = '\n' ∨ c = '\r' ∨ c = '\x0b' ∨ c = '\x0c')

def jsTrimList (l : List Char) : List Char :=
  ((l.dropWhile isJsWs).reverse.dropWhile isJsWs).reverse

/-- Model of `s.trim()`. -/
def jsTrim (s : String) : String := ⟨jsTrimList s.data⟩

/-- ASCII lower-casing of one character, as `toLowerCase` acts on ASCII. -/
def lowerChar (c : Char) : Char :=
  if 65 ≤ c.toNat ∧ c.toNat ≤ 90 then Char.ofNat (c.toNat + 32) else c

/-- Model of `s.toLowerCase()` (ASCII behaviour). -/
def jsToLower (s : String) : String := ⟨s.data.map lowerChar⟩

/-- `t.trim().toLowerCase()`, the normalization both variants apply. -/
def normalizeTemplate (s : String) : String := jsToLower (jsTrim s)

/-- Character class of the template-name test `/^[a-z0-9-]+$/`. -/
def templateChar (c : Char) : Bool :=
  decide ((97 ≤ c.toNat ∧ c.toNat ≤ 122) ∨ (48 ≤ c.toNat ∧ c.toNat ≤ 57) ∨ c = '-')

/-- `/^[a-z0-9-]+$/.test s`. -/
def templateNameOk (s : String) : Bool :=
  decide (s ≠ "") && s.data.all templateChar

/-- Character class of the project-name test `/^[a-zA-Z0-9-_]+$/`. -/
def projectChar (c : Char) : Bool :=
  decide ((97 ≤ c.toNat ∧ c.toNat ≤ 122) ∨ (65 ≤ c.toNat ∧ c.toNat ≤ 90) ∨
    (48 ≤ c.toNat ∧ c.toNat ≤ 57) ∨ c = '-' ∨ c = '_')

/-- `/^[a-zA-Z0-9-_]+$/.test s`. -/
def projectNameOk (s : String) : Bool :=
  decide (s ≠ "") && s.data.all projectChar

/-- `const AVAILABLE_TEMPLATES = ["base", "redux"]` (same in both variants). -/
def AVAILABLE_TEMPLATES : List String := ["base", "redux"]

/-- Filesystem observations consulted by the first variant's
`validateTemplate`, indexed by the normalized template name.
`rootRealpathOk` is whether `fs.realpathSync(templatesRoot)` succeeds;
`realpathOk n` whether `fs.realpathSync(resolve(root, "template-" ++ n))`
succeeds; `confined n` whether the relative-path containment test of the
resolved real path against the real templates root passes; `realExists n`,
`statOk n`, `isDirectory n` the subsequent `existsSync`/`statSync` facts;
`manifestExists n` whether `template-<n>/package.json` exists and
`manifestParses n` whether `readJsonSync` on it succeeds. -/
structure FSView where
  rootRealpathOk : Bool
  realpathOk : String → Bool
  confined : String → Bool
  realExists : String → Bool
  statOk : String → Bool
  isDirectory : String → Bool
  manifestExists : String → Bool
  manifestParses : String → Bool

/-- Result of an inquirer `validate` callback: `true` or a message string. -/
inductive VRes where
  | ok : VRes
  | msg (m : String) : VRes
  deriving DecidableEq

namespace V1

/-- First variant's `validateTemplate` (src/index.js lines 22-85): syntactic
normalization and character-class check, then realpath confinement,
existence, directory and manifest checks against the filesystem; every
failure (including any thrown filesystem error, caught by the surrounding
`try`/`catch`) yields the fallback `"base"`. -/
def validateTemplate (fs : FSView) (t : Option String) : String :=
  match t with
  | none => "base"
  | some s =>
    if s = "" then "base"
    else
      let name := normalizeTemplate s
      if templateNameOk name = false then "base"
      else if fs.rootRealpathOk = false then "base"
      else if fs.realpathOk name = false then "base"
      else if fs.confined name = false then "base"
      else if fs.realExists name = false then "base"
      else if fs.statOk name = false then "base"
      else if fs.isDirectory name = false then "base"
      else if fs.manifestExists name = true ∧ fs.manifestParses name = false then "base"
      else name

/-- First variant's project-name prompt validator (lines 97-102): only
requires the input to be non-blank. -/
def validateProjectName (input : Option String) : VRes :=
  match input with
  | none => VRes.msg "Project name is required"
  | some s =>
    if s = "" ∨ jsTrim s = "" then VRes.msg "Project name is required"
    else VRes.ok

end V1

namespace V2

/-- Second variant's `validateTemplate` (src/index.js lines 225-243):
normalization, character-class check, then membership in
`AVAILABLE_TEMPLATES`; anything else yields `"base"`. -/
def validateTemplate (t : Option String) : String :=
  match t with
  | none => "base"
  | some s =>
    if s = "" then "base"
    else
      let name := normalizeTemplate s
      if templateNameOk name = false then "base"
      else if name ∉ AVAILABLE_TEMPLATES then "base"
      else name

/-- Second variant's project-name prompt validator (lines 255-272):
non-blank, then the trimmed name must satisfy `/^[a-zA-Z0-9-_]+$/` and be at
most 50 characters. -/
def validateProjectName (input : Option String) : VRes :=
  match input with
  | none => VRes.msg "Project name is required"
  | some s =>
    if s = "" ∨ jsTrim s = "" then VRes.msg "Project name is required"
    else
      let name := jsTrim s
      if projectNameOk name = false then
        VRes.msg "Project name can only contain letters, numbers, hyphens, and underscores"
      else if name.length > 50 then
        VRes.msg "Project name must be 50 characters or less"
      else VRes.ok

end V2

lemma lowerChar_of_templateChar {c : Char} (h : templateChar c = true) : lowerChar c = c := by
  unfold templateChar at h
  have h' := of_decide_eq_true h
  unfold lowerChar
  rcases h' with ⟨h1, h2⟩ | ⟨h1, h2⟩ | rfl
  · rw [if_neg (by omega)]
  · rw [if_neg (by omega)]
  · rfl

lemma isJsWs_of_templateChar {c : Char} (h : templateChar c = true) : isJsWs c = false := by
  unfold templateChar at h
  have h' := of_decide_eq_true h
  unfold isJsWs
  apply decide_eq_false
  rintro (rfl | rfl | rfl | rfl | rfl | rfl) <;> revert h' <;> decide

lemma dropWhile_eq_self_of {p : Char → Bool} {l : List Char}
    (h : ∀ c ∈ l, p c = false) : l.dropWhile p = l := by
  cases l with
  | nil => rfl
  | cons a t => simp [List.dropWhile_cons, h a (by simp)]

lemma map_lowerChar_eq_self {l : List Char}
    (h : ∀ c ∈ l, templateChar c = true) : l.map lowerChar = l := by
  induction l with
  | nil => rfl
  | cons a t ih =>
    simp only [List.map_cons, lowerChar_of_templateChar (h a (by simp)),
      ih (fun c hc => h c (by simp [hc])), List.cons.injEq, and_self]

/-- A name that already passes the template character-class check is left
unchanged by trimming and lower-casing. -/
lemma normalizeTemplate_of_ok {n : String} (h : templateNameOk n = true) :
    normalizeTemplate n = n := by
  unfold templateNameOk at h
  rw [Bool.and_eq_true] at h
  obtain ⟨-, hall⟩ := h
  rw [List.all_eq_true] at hall
  have hws : ∀ c ∈ n.data, isJsWs c = false := fun c hc => isJsWs_of_templateChar (hall c hc)
  unfold normalizeTemplate jsTrim jsTrimList jsToLower
  rw [dropWhile_eq_self_of hws,
    dropWhile_eq_self_of (fun c hc => hws c (List.mem_reverse.mp hc)),
    List.reverse_reverse, map_lowerChar_eq_self hall]

namespace V2

/-- Case analysis of the second variant's `validateTemplate`: either the
fallback, or the normalized input name, which then passes the character
class and is in the allow-list. -/
lemma validateTemplate_spec (t : Option String) :
    validateTemplate t = "base" ∨
    ∃ s, t = some s ∧ validateTemplate t = normalizeTemplate s ∧
      templateNameOk (normalizeTemplate s) = true ∧
      normalizeTemplate s ∈ AVAILABLE_TEMPLATES := by
  cases t with
  | none => exact Or.inl rfl
  | some s =>
    by_cases h1 : s = ""
    · left; simp [validateTemplate, h1]
    · by_cases h2 : templateNameOk (normalizeTemplate s) = false
      · left; simp [validateTemplate, h1, h2]
      · by_cases h3 : normalizeTemplate s ∈ AVAILABLE_TEMPLATES
        · right
          exact ⟨s, rfl, by simp [validateTemplate, h1, h2, h3], by simpa using h2, h3⟩
        · left; simp [validateTemplate, h1, h2, h3]

/-- The second variant's resolution always lands in the allow-list. -/
lemma validateTemplate_mem (t : Option String) :
    validateTemplate t ∈ AVAILABLE_TEMPLATES := by
  rcases validateTemplate_spec t with h | ⟨s, -, hv, -, hmem⟩
  · rw [h]; simp [AVAILABLE_TEMPLATES]
  · rw [hv]; exact hmem

end V2

namespace V1

/-- Case analysis of the first variant's `validateTemplate`: either the
fallback, or the normalized input name, which then passes the character
class and every filesystem check (realpath of root and candidate,
confinement, existence, stat, directory, and a parseable manifest whenever
one exists). -/
lemma validateTemplate_cases (fs : FSView) (t : Option String) :
    validateTemplate fs t = "base" ∨
    ∃ s, t = some s ∧ validateTemplate fs t = normalizeTemplate s ∧
      templateNameOk (normalizeTemplate s) = true ∧
      fs.rootRealpathOk = true ∧
      fs.realpathOk (normalizeTemplate s) = true ∧
      fs.confined (normalizeTemplate s) = true ∧
      fs.realExists (normalizeTemplate s) = true ∧
      fs.statOk (normalizeTemplate s) = true ∧
      fs.isDirectory (normalizeTemplate s) = true ∧
      (fs.manifestExists (normalizeTemplate s) = true →
        fs.manifestParses (normalizeTemplate s) = true) := by
  cases t with
  | none => exact Or.inl rfl
  | some s =>
    by_cases h1 : s = ""
    · left; simp [validateTemplate, h1]
    · by_cases h2 : templateNameOk (normalizeTemplate s) = false
      · left; simp [validateTemplate, h1, h2]
      · by_cases h3 : fs.rootRealpathOk = false
        · left; simp [validateTemplate, h1, h2, h3]
        · by_cases h4 : fs.realpathOk (normalizeTemplate s) = false
          · left; simp [validateTemplate, h1, h2, h3, h4]
          · by_cases h5 : fs.confined (normalizeTemplate s) = false
            · left; simp [validateTemplate, h1, h2, h3, h4, h5]
            · by_cases h6 : fs.realExists (normalizeTemplate s) = false
              · left; simp [validateTemplate, h1, h2, h3, h4, h5, h6]
              · by_cases h7 : fs.statOk (normalizeTemplate s) = false
                · left; simp [validateTemplate, h1, h2, h3, h4, h5, h6, h7]
                · by_cases h8 : fs.isDirectory (normalizeTemplate s) = false
                  · left; simp [validateTemplate, h1, h2, h3, h4, h5, h6, h7, h8]
                  · by_cases h9 : fs.manifestExists (normalizeTemplate s) = true ∧
                      fs.manifestParses (normalizeTemplate s) = false
                    · left; simp [validateTemplate, h1, h2, h3, h4, h5, h6, h7, h8, h9]
                    · right
                      refine ⟨s, rfl, by simp [validateTemplate, h1, h2, h3, h4, h5, h6, h7, h8, h9],
                        by simpa using h2, by simpa using h3, by simpa using h4,
                        by simpa using h5, by simpa using h6, by simpa using h7,
                        by simpa using h8, ?_⟩
                      intro ha
                      cases hx : fs.manifestParses (normalizeTemplate s) with
                      | false => exact absurd ⟨ha, hx⟩ h9
                      | true => rfl

end V1

namespace V2

/-- If the trimmed, lower-cased name is outside the allow-list, the second
variant falls back. -/
lemma validateTemplate_not_mem {s : String}
    (h : normalizeTemplate s ∉ AVAILABLE_TEMPLATES) : validateTemplate (some s) = "base" := by
  rcases validateTemplate_spec (some s) with hv | ⟨s', hs, hv, -, hmem⟩
  · exact hv
  · obtain rfl := Option.some.inj hs
    exact absurd hmem h

/-- Validating an already-resolved name a second time returns it unchanged. -/
lemma validateTemplate_fix (t : Option String) :
    validateTemplate (some (validateTemplate t)) = validateTemplate t := by
  have hmem := validateTemplate_mem t
  simp only [AVAILABLE_TEMPLATES, List.mem_cons, List.mem_singleton] at hmem
  rcases hmem with h | h | h
  · rw [h]; decide
  · rw [h]; decide
  · simp at h

end V2

namespace V1

/-- The fallback is returned whenever any filesystem-confinement check of the
first variant fails on the normalized name. -/
lemma validateTemplate_checkfail {fs : FSView} {s : String}
    (h : fs.rootRealpathOk = false ∨ fs.realpathOk (normalizeTemplate s) = false ∨
      fs.confined (normalizeTemplate s) = false ∨ fs.realExists (normalizeTemplate s) = false ∨
      fs.statOk (normalizeTemplate s) = false ∨ fs.isDirectory (normalizeTemplate s) = false) :
    validateTemplate fs (some s) = "base" := by
  rcases validateTemplate_cases fs (some s) with hv | ⟨s', hs, hv, -, h3, h4, h5, h6, h7, h8, -⟩
  · exact hv
  · obtain rfl := Option.some.inj hs
    rcases h with h | h | h | h | h | h <;> simp_all

/-- The first variant's result is the fallback or a name whose confinement
and directory checks passed. -/
lemma validateTemplate_safe (fs : FSView) (t : Option String) :
    validateTemplate fs t = "base" ∨
    (fs.confined (validateTemplate fs t) = true ∧
      fs.isDirectory (validateTemplate fs t) = true) := by
  rcases validateTemplate_cases fs t with hv | ⟨s, -, hv, -, -, -, h5, -, -, h8, -⟩
  · exact Or.inl hv
  · right; rw [hv]; exact ⟨h5, h8⟩

/-- Validating the literal fallback always yields the fallback. -/
lemma validateTemplate_base (fs : FSView) : validateTemplate fs (some "base") = "base" := by
  rcases validateTemplate_cases fs (some "base") with hv | ⟨s', hs, hv, -⟩
  · exact hv
  · obtain rfl := Option.some.inj hs
    rw [hv]; decide

/-- A name that passes the character class and every filesystem check is
returned unchanged by the first variant. -/
lemma validateTemplate_fixpoint (fs : FSView) {n : String}
    (hok : templateNameOk n = true)
    (h3 : fs.rootRealpathOk = true) (h4 : fs.realpathOk n = true)
    (h5 : fs.confined n = true) (h6 : fs.realExists n = true)
    (h7 : fs.statOk n = true) (h8 : fs.isDirectory n = true)
    (himp : fs.manifestExists n = true → fs.manifestParses n = true) :
    validateTemplate fs (some n) = n := by
  have hne : ¬(n = "") := by
    unfold templateNameOk at hok
    rw [Bool.and_eq_true] at hok
    exact of_decide_eq_true hok.1
  have hnorm := normalizeTemplate_of_ok hok
  have hcon : ¬(fs.manifestExists n = true ∧ fs.manifestParses n = false) := by
    rintro ⟨ha, hb⟩
    rw [himp ha] at hb
    exact absurd hb (by decide)
  simp [validateTemplate, hne, hnorm, hok, h3, h4, h5, h6, h7, h8, hcon]

/-- Validating the first variant's own result a second time (against the
same filesystem state) returns it unchanged. -/
lemma validateTemplate_twice (fs : FSView) (t : Option String) :
    validateTemplate fs (some (validateTemplate fs t)) = validateTemplate fs t := by
  rcases validateTemplate_cases fs t with hv | ⟨s, -, hv, hok, h3, h4, h5, h6, h7, h8, himp⟩
  · rw [hv]; exact validateTemplate_base fs
  · rw [hv]; exact validateTemplate_fixpoint fs hok h3 h4 h5 h6 h7 h8 himp

end V1

/-- User-visible events emitted during a `createProject` run, in program
order: prompt questions shown, the fallback warning, the guard checks and
their failure messages, the fetch life-cycle, rollback messages, the error
report and the success message, and the render failure of inquirer. -/
inductive Ev where
  | promptProjectName : Ev
  | promptTemplate : Ev
  | warnFallback (got sub : String) : Ev
  | errAlreadyExists (name : String) : Ev
  | errNotWritable : Ev
  | errTemplateMissing (t : String) : Ev
  | checkedExistsOk : Ev
  | checkedWritableOk : Ev
  | checkedTemplateDirOk : Ev
  | fetchStarted (coord : String) : Ev
  | fetchSucceeded : Ev
  | fetchFailed : Ev
  | cleanupDone : Ev
  | warnManualCleanup : Ev
  | errorReported : Ev
  | successMsg : Ev
  | errPromptRender : Ev
  deriving DecidableEq

/-- The answers object produced by the prompt collaborator. -/
structure Answers where
  projectName : String
  template : String

/-- Observable outcome of one orchestrator run.  `fetchCoord` is the
coordinate handed to the fetch collaborator (`degit`), `none` when the fetch
was never invoked; `destAtEnd` is whether the destination path exists when
the process terminates. -/
structure Outcome where
  events : List Ev
  exitCode : Nat
  destAtEnd : Bool
  finalTemplate : Option String
  fetchCoord : Option String

/-- `x || y` for a possibly-undefined string `x` (empty string is falsy). -/
def jsOrString (a : Option String) (b : String) : String :=
  match a with
  | some s => if s = "" then b else s
  | none => b

/-- `when` predicate of the project-name question: `!projectName`. -/
def projectPromptShown (pn : Option String) : Bool :=
  match pn with
  | none => true
  | some s => decide (s = "")

/-- `when` predicate of the template question:
`!template || !AVAILABLE_TEMPLATES.includes(template)` (same in both
variants). -/
def templatePromptShown (tplOpt : Option String) : Bool :=
  match tplOpt with
  | none => true
  | some t => decide (t = "") || decide (t ∉ AVAILABLE_TEMPLATES)

/-- Prompt questions actually rendered, in order. -/
def promptEvs (pnArg tplOpt : Option String) : List Ev :=
  (if projectPromptShown pnArg then [Ev.promptProjectName] else []) ++
  (if templatePromptShown tplOpt then [Ev.promptTemplate] else [])

/-- World state observed by one run of the first variant: whether the prompt
can render, the filesystem view used by `validateTemplate`, whether the
destination already exists, whether the sibling `template-<t>` directory
exists, whether the `degit` clone succeeds, and whether a failed clone left
files at the destination. -/
structure World1 where
  promptOk : Bool
  fs : FSView
  destHas : Bool
  templateDirHas : String → Bool
  fetchOk : Bool
  fetchWrote : Bool

/-- World state observed by one run of the second variant, additionally with
the parent-directory writability and the success of the rollback removal. -/
structure World2 where
  promptOk : Bool
  destHas : Bool
  parentWritable : Bool
  fetchOk : Bool
  fetchWrote : Bool
  cleanupOk : Bool

namespace V1

/-- First variant's `createProject` (src/index.js lines 87-186): prompt,
keep the raw `--template` option, validate it against the filesystem, warn
on fallback, abort if the destination exists, abort if the local
`template-<t>` directory is missing, then `degit` the fixed coordinate
`"fraanlol/template-base"`; on clone failure report the error and exit 1
without any cleanup; a prompt render failure is only logged (no `process.exit`). -/
def createProject (w : World1) (pnArg tplOpt : Option String) (ans : Answers) : Outcome :=
  if w.promptOk = false then
    { events := [Ev.errPromptRender], exitCode := 0, destAtEnd := w.destHas,
      finalTemplate := none, fetchCoord := none }
  else
    let projectName := jsOrString pnArg ans.projectName
    let finalT := validateTemplate w.fs tplOpt
    let warnEvs : List Ev :=
      match tplOpt with
      | some t => if finalT ≠ t then [Ev.warnFallback t finalT] else []
      | none => [Ev.warnFallback "" finalT]
    let evs0 := promptEvs pnArg tplOpt ++ warnEvs
    if w.destHas then
      { events := evs0 ++ [Ev.errAlreadyExists projectName], exitCode := 1, destAtEnd := true,
        finalTemplate := some finalT, fetchCoord := none }
    else if w.templateDirHas finalT = false then
      { events := evs0 ++ [Ev.checkedExistsOk, Ev.errTemplateMissing finalT], exitCode := 1,
        destAtEnd := false, finalTemplate := some finalT, fetchCoord := none }
    else
      let coord := "fraanlol/template-base"
      let pre := evs0 ++ [Ev.checkedExistsOk, Ev.checkedTemplateDirOk, Ev.fetchStarted coord]
      if w.fetchOk then
        { events := pre ++ [Ev.fetchSucceeded], exitCode := 0, destAtEnd := true,
          finalTemplate := some finalT, fetchCoord := some coord }
      else
        { events := pre ++ [Ev.fetchFailed, Ev.errorReported], exitCode := 1,
          destAtEnd := w.fetchWrote, finalTemplate := some finalT, fetchCoord := some coord }

end V1

namespace V2

/-- Second variant's `createProject` (src/index.js lines 245-398): prompt,
`template = template || answers.template`, validate against the allow-list,
warn on fallback, abort if the destination exists, abort if the parent
directory is not writable, then `degit` the coordinate
`"fraanlol/template-react-" ++ template`; on clone failure remove the
destination if it exists (warning when the removal itself fails), report the
error and exit 1; a prompt render failure exits 1. -/
def createProject (w : World2) (pnArg tplOpt : Option String) (ans : Answers) : Outcome :=
  if w.promptOk = false then
    { events := [Ev.errPromptRender], exitCode := 1, destAtEnd := w.destHas,
      finalTemplate := none, fetchCoord := none }
  else
    let projectName := jsOrString pnArg ans.projectName
    let ansTemplate := if templatePromptShown tplOpt then ans.template else ""
    let template := jsOrString tplOpt ansTemplate
    let finalT := validateTemplate (some template)
    let warnEvs : List Ev := if finalT ≠ template then [Ev.warnFallback template finalT] else []
    let evs0 := promptEvs pnArg tplOpt ++ warnEvs
    if w.destHas then
      { events := evs0 ++ [Ev.errAlreadyExists projectName], exitCode := 1, destAtEnd := true,
        finalTemplate := some finalT, fetchCoord := none }
    else if w.parentWritable = false then
      { events := evs0 ++ [Ev.checkedExistsOk, Ev.errNotWritable], exitCode := 1,
        destAtEnd := false, finalTemplate := some finalT, fetchCoord := none }
    else
      let coord := "fraanlol/template-react-" ++ finalT
      let pre := evs0 ++ [Ev.checkedExistsOk, Ev.checkedWritableOk, Ev.fetchStarted coord]
      if w.fetchOk then
        { events := pre ++ [Ev.fetchSucceeded, Ev.successMsg], exitCode := 0, destAtEnd := true,
          finalTemplate := some finalT, fetchCoord := some coord }
      else if w.fetchWrote then
        if w.cleanupOk then
          { events := pre ++ [Ev.fetchFailed, Ev.cleanupDone, Ev.errorReported], exitCode := 1,
            destAtEnd := false, finalTemplate := some finalT, fetchCoord := some coord }
        else
          { events := pre ++ [Ev.fetchFailed, Ev.warnManualCleanup, Ev.errorReported],
            exitCode := 1, destAtEnd := true, finalTemplate := some finalT,
            fetchCoord := some coord }
      else
        { events := pre ++ [Ev.fetchFailed, Ev.errorReported], exitCode := 1, destAtEnd := false,
          finalTemplate := some finalT, fetchCoord := some coord }

end V2

lemma promptTemplate_mem_promptEvs {pn tpl : Option String}
    (h : templatePromptShown tpl = true) : Ev.promptTemplate ∈ promptEvs pn tpl := by
  unfold promptEvs
  rw [if_pos h]
  simp

lemma infix_append_right {α} {l l' : List α} (x : List α) (h : l <:+: l') :
    l <:+: x ++ l' := by
  obtain ⟨s, t, rfl⟩ := h
  exact ⟨x ++ s, t, by simp⟩

namespace V2

/-- The second variant never fetches without the destination-existence and
parent-writability checks both passing first. -/
lemma fetch_only_after_guard (w : World2) (pn tpl : Option String) (ans : Answers)
    {c : String} (h : (createProject w pn tpl ans).fetchCoord = some c) :
    w.promptOk = true ∧ w.destHas = false ∧ w.parentWritable = true := by
  cases h1 : w.promptOk <;> cases h2 : w.destHas <;> cases h3 : w.parentWritable <;>
    cases h4 : w.fetchOk <;> cases h5 : w.fetchWrote <;> cases h6 : w.cleanupOk <;>
    simp_all [createProject]

/-- On every path that reaches the fetch, the events contain, consecutively
and in order, the passed existence check, the passed writability check, and
the fetch start. -/
lemma guard_before_fetch (w : World2) (pn tpl : Option String) (ans : Answers)
    {c : String} (h : (createProject w pn tpl ans).fetchCoord = some c) :
    [Ev.checkedExistsOk, Ev.checkedWritableOk, Ev.fetchStarted c] <:+:
      (createProject w pn tpl ans).events := by
  obtain ⟨h1, h2, h3⟩ := fetch_only_after_guard w pn tpl ans h
  cases h4 : w.fetchOk <;> cases h5 : w.fetchWrote <;> cases h6 : w.cleanupOk <;>
    simp_all [createProject] <;>
    exact infix_append_right _ (infix_append_right _ ⟨[], _, rfl⟩)

/-- The resolved template reported by a run of the second variant is the
validation of `template || answers.template`. -/
lemma finalTemplate_eq (w : World2) (pn tpl : Option String) (ans : Answers)
    (h1 : w.promptOk = true) :
    (createProject w pn tpl ans).finalTemplate =
      some (validateTemplate (some (jsOrString tpl
        (if templatePromptShown tpl then ans.template else "")))) := by
  cases h2 : w.destHas <;> cases h3 : w.parentWritable <;> cases h4 : w.fetchOk <;>
    cases h5 : w.fetchWrote <;> cases h6 : w.cleanupOk <;>
    simp [createProject, h1, h2, h3, h4, h5, h6]

/-- The fetch coordinate of the second variant, when the fetch is reached,
is the fixed namespace followed by the resolved template. -/
lemma fetchCoord_eq (w : World2) (pn tpl : Option String) (ans : Answers)
    {c : String} (h : (createProject w pn tpl ans).fetchCoord = some c) :
    ∃ t, (createProject w pn tpl ans).finalTemplate = some t ∧
      c = "fraanlol/template-react-" ++ t := by
  obtain ⟨h1, h2, h3⟩ := fetch_only_after_guard w pn tpl ans h
  cases h4 : w.fetchOk <;> cases h5 : w.fetchWrote <;> cases h6 : w.cleanupOk <;>
    simp_all [createProject]

/-- Any event of the prompt phase occurs in the run's event list. -/
lemma mem_events_of_mem_promptEvs {e : Ev} (w : World2) (pn tpl : Option String)
    (ans : Answers) (h1 : w.promptOk = true) (he : e ∈ promptEvs pn tpl) :
    e ∈ (createProject w pn tpl ans).events := by
  cases h2 : w.destHas <;> cases h3 : w.parentWritable <;> cases h4 : w.fetchOk <;>
    cases h5 : w.fetchWrote <;> cases h6 : w.cleanupOk <;>
    simp [createProject, h1, h2, h3, h4, h5, h6, List.mem_append, he]

end V2

namespace V1

/-- The first variant performs no writability check: no run of it ever
emits the writable-check event or the not-writable error. -/
lemma no_writable_check (w : World1) (pn tpl : Option String) (ans : Answers) :
    Ev.checkedWritableOk ∉ (createProject w pn tpl ans).events ∧
    Ev.errNotWritable ∉ (createProject w pn tpl ans).events := by
  cases h1 : w.promptOk <;> cases h2 : w.destHas <;>
    cases h3 : w.templateDirHas (validateTemplate w.fs tpl) <;> cases h4 : w.fetchOk <;>
    cases tpl <;>
    simp [createProject, h1, h2, h3, h4, promptEvs]

/-- The first variant performs no rollback: no run of it ever removes the
destination or warns about a failed removal. -/
lemma no_cleanup (w : World1) (pn tpl : Option String) (ans : Answers) :
    Ev.cleanupDone ∉ (createProject w pn tpl ans).events ∧
    Ev.warnManualCleanup ∉ (createProject w pn tpl ans).events := by
  cases h1 : w.promptOk <;> cases h2 : w.destHas <;>
    cases h3 : w.templateDirHas (validateTemplate w.fs tpl) <;> cases h4 : w.fetchOk <;>
    cases tpl <;>
    simp [createProject, h1, h2, h3, h4, promptEvs]

/-- Whatever template the first variant resolves, the coordinate handed to
the fetch collaborator is always the fixed `"fraanlol/template-base"`. -/
lemma fetchCoord_fixed (w : World1) (pn tpl : Option String) (ans : Answers)
    {c : String} (h : (createProject w pn tpl ans).fetchCoord = some c) :
    c = "fraanlol/template-base" := by
  cases h1 : w.promptOk <;> cases h2 : w.destHas <;>
    cases h3 : w.templateDirHas (validateTemplate w.fs tpl) <;> cases h4 : w.fetchOk <;>
    simp_all [createProject]

end V1

/-- Filesystem view in which every check passes and no manifest exists. -/
def fsAllOk : FSView :=
  ⟨true, fun _ => true, fun _ => true, fun _ => true, fun _ => true, fun _ => true,
    fun _ => false, fun _ => true⟩

/-- Filesystem view in which realpath resolution of the candidate fails. -/
def fsNoReal : FSView :=
  ⟨true, fun _ => false, fun _ => true, fun _ => true, fun _ => true, fun _ => true,
    fun _ => false, fun _ => true⟩

/-- Filesystem view whose template manifest exists but cannot be parsed. -/
def fsBadManifest : FSView :=
  ⟨true, fun _ => true, fun _ => true, fun _ => true, fun _ => true, fun _ => true,
    fun _ => true, fun _ => false⟩

def ansBase : Answers := ⟨"app", "base"⟩

/-- Second-variant world: destination already exists. -/
def w2dest : World2 := ⟨true, true, true, true, false, true⟩

/-- Second-variant world: clean run, fetch fails after writing, cleanup fails. -/
def w2fail : World2 := ⟨true, false, true, false, true, false⟩

/-- Second-variant world: clean run, fetch succeeds. -/
def w2ok : World2 := ⟨true, false, true, true, false, true⟩

/-- First-variant world: destination already exists. -/
def w1dest : World1 := ⟨true, fsAllOk, true, fun _ => true, true, false⟩

/-- First-variant world: clean run, fetch fails after writing files. -/
def w1fail : World1 := ⟨true, fsAllOk, false, fun _ => true, false, true⟩

/-- First-variant world: clean run, fetch succeeds. -/
def w1ok : World1 := ⟨true, fsAllOk, false, fun _ => true, true, false⟩

/-- C1, counterexample: the raw name "Redux" is not a member of the
allow-list, yet allow-list resolution returns "redux", not the fallback
"base" — membership is tested only after trimming and lower-casing. -/
theorem c1_counterexample :
    "Redux" ∉ AVAILABLE_TEMPLATES ∧ V2.validateTemplate (some "Redux") = "redux" ∧
    V2.validateTemplate (some "Redux") ≠ "base" := by decide

/-- C1 (amended): for every raw template name whose trimmed lower-cased form
is not a member of the allow-list, allow-list resolution returns the
fallback "base", and its result always lies in the allow-list; under the
confinement strategy, failure of any realpath / confinement / existence /
directory check on the normalized name yields "base", and the returned value
is "base" or a name whose confinement and directory checks passed (so it
never denotes a path outside the templates root); both resolvers are total
functions of their inputs, hence never throw. -/
theorem c1_resolution_falls_back_and_stays_confined :
    (∀ s : String, normalizeTemplate s ∉ AVAILABLE_TEMPLATES →
      V2.validateTemplate (some s) = "base") ∧
    (∀ t : Option String, V2.validateTemplate t ∈ AVAILABLE_TEMPLATES) ∧
    (∀ (fs : FSView) (s : String),
      fs.rootRealpathOk = false ∨ fs.realpathOk (normalizeTemplate s) = false ∨
        fs.confined (normalizeTemplate s) = false ∨
        fs.realExists (normalizeTemplate s) = false ∨
        fs.statOk (normalizeTemplate s) = false ∨
        fs.isDirectory (normalizeTemplate s) = false →
      V1.validateTemplate fs (some s) = "base") ∧
    (∀ (fs : FSView) (t : Option String),
      V1.validateTemplate fs t = "base" ∨
        (fs.confined (V1.validateTemplate fs t) = true ∧
          fs.isDirectory (V1.validateTemplate fs t) = true)) :=
  ⟨fun _ h => V2.validateTemplate_not_mem h, V2.validateTemplate_mem,
    fun _ _ h => V1.validateTemplate_checkfail h, V1.validateTemplate_safe⟩

theorem c1_witness :
    V2.validateTemplate (some "evil") = "base" ∧
    V1.validateTemplate fsNoReal (some "evil") = "base" :=
  ⟨c1_resolution_falls_back_and_stays_confined.1 "evil" (by decide),
    c1_resolution_falls_back_and_stays_confined.2.2.1 fsNoReal "evil"
      (Or.inr (Or.inl (by decide)))⟩

/-- C6: both template validators are total functions (they return a value
for every input by construction); a non-string (`none`) or empty input
yields "base"; a name whose trimmed lower-cased form fails the character
class `^[a-z0-9-]+$` yields "base"; and any non-fallback result is exactly
the trimmed lower-cased input, i.e. the input is normalized before any
check. -/
theorem c6_validator_totality_and_policy :
    (V2.validateTemplate none = "base" ∧ V2.validateTemplate (some "") = "base") ∧
    (∀ fs : FSView, V1.validateTemplate fs none = "base" ∧
      V1.validateTemplate fs (some "") = "base") ∧
    (∀ s : String, templateNameOk (normalizeTemplate s) = false →
      V2.validateTemplate (some s) = "base" ∧
      ∀ fs : FSView, V1.validateTemplate fs (some s) = "base") ∧
    (∀ s : String, V2.validateTemplate (some s) = "base" ∨
      V2.validateTemplate (some s) = normalizeTemplate s) ∧
    (∀ (fs : FSView) (s : String), V1.validateTemplate fs (some s) = "base" ∨
      V1.validateTemplate fs (some s) = normalizeTemplate s) := by
  refine ⟨by decide, fun fs => ⟨rfl, by simp [V1.validateTemplate]⟩, ?_, ?_, ?_⟩
  · intro s h
    constructor
    · by_cases hs : s = "" <;> simp [V2.validateTemplate, hs, h]
    · intro fs
      by_cases hs : s = "" <;> simp [V1.validateTemplate, hs, h]
  · intro s
    rcases V2.validateTemplate_spec (some s) with h | ⟨s', hs, hv, -, -⟩
    · exact Or.inl h
    · obtain rfl := Option.some.inj hs
      exact Or.inr hv
  · intro fs s
    rcases V1.validateTemplate_cases fs (some s) with h | ⟨s', hs, hv, -⟩
    · exact Or.inl h
    · obtain rfl := Option.some.inj hs
      exact Or.inr hv

theorem c6_witness :
    V2.validateTemplate (some "../etc") = "base" ∧
    V1.validateTemplate fsAllOk (some "../etc") = "base" := by
  have h := c6_validator_totality_and_policy.2.2.1 "../etc" (by decide)
  exact ⟨h.1, h.2 fsAllOk⟩

/-- C8: if the manifest of the (normalized) template exists but cannot be
parsed, the first variant's resolution fails closed and returns the
fallback "base". -/
theorem c8_unparseable_manifest_falls_back (fs : FSView) (s : String)
    (hm : fs.manifestExists (normalizeTemplate s) = true)
    (hp : fs.manifestParses (normalizeTemplate s) = false) :
    V1.validateTemplate fs (some s) = "base" := by
  rcases V1.validateTemplate_cases fs (some s) with h | ⟨s', hs, -, -, -, -, -, -, -, -, himp⟩
  · exact h
  · obtain rfl := Option.some.inj hs
    rw [himp hm] at hp
    exact absurd hp (by decide)

theorem c8_witness : V1.validateTemplate fsBadManifest (some "redux") = "base" :=
  c8_unparseable_manifest_falls_back fsBadManifest "redux" rfl rfl

/-- C9, counterexample: the first variant's `validateTemplate` is not free
of filesystem access — on the same raw input "redux" it returns "redux" in
one filesystem state and "base" in another, so its result is not a function
of the name alone. -/
theorem c9_counterexample :
    V1.validateTemplate fsAllOk (some "redux") = "redux" ∧
    V1.validateTemplate fsNoReal (some "redux") = "base" := by decide

/-- C9 (amended): the second variant's validation is purely syntactic, and
both validators are idempotent for a fixed filesystem state: re-validating
the value a run returned yields that value unchanged. -/
theorem c9_validation_idempotent :
    (∀ t : Option String,
      V2.validateTemplate (some (V2.validateTemplate t)) = V2.validateTemplate t) ∧
    (∀ (fs : FSView) (t : Option String),
      V1.validateTemplate fs (some (V1.validateTemplate fs t)) =
        V1.validateTemplate fs t) :=
  ⟨V2.validateTemplate_fix, V1.validateTemplate_twice⟩

/-- C5, counterexample: "a b" contains a space, so by the claim validation
must fail with a message — but the first variant's project-name validator
accepts it (it only rejects blank input). -/
theorem c5_counterexample :
    V1.validateProjectName (some "a b") = VRes.ok ∧ projectNameOk "a b" = false := by decide

/-- C5 (amended): the second variant's project-name validation trims first:
it passes exactly the inputs whose trimmed form is non-empty, matches
`^[a-zA-Z0-9_-]+$` and has length at most 50, and every failure returns a
non-empty descriptive message; the first variant's validation only requires
a non-blank input. -/
theorem c5_project_name_validation :
    (∀ s : String, V2.validateProjectName (some s) = VRes.ok ↔
      (jsTrim s ≠ "" ∧ projectNameOk (jsTrim s) = true ∧ (jsTrim s).length ≤ 50)) ∧
    (∀ s : String, V2.validateProjectName (some s) = VRes.ok ∨
      ∃ m, V2.validateProjectName (some s) = VRes.msg m ∧ m ≠ "") ∧
    (∀ s : String, V1.validateProjectName (some s) = VRes.ok ↔ jsTrim s ≠ "") := by
  have hblank : ∀ s : String, (s = "" ∨ jsTrim s = "") → jsTrim s = "" := by
    rintro s (rfl | h)
    · rfl
    · exact h
  refine ⟨?_, ?_, ?_⟩
  · intro s
    by_cases h1 : s = "" ∨ jsTrim s = ""
    · simp [V2.validateProjectName, h1, hblank s h1]
    · by_cases h3 : projectNameOk (jsTrim s) = false
      · simp [V2.validateProjectName, h1, h3]
      · have hne : jsTrim s ≠ "" := fun hh => h1 (Or.inr hh)
        have hok : projectNameOk (jsTrim s) = true := by simpa using h3
        by_cases h4 : (jsTrim s).length > 50
        · have hgt : ¬((jsTrim s).length ≤ 50) := by omega
          simp [V2.validateProjectName, h1, h3, h4, hgt]
        · have hle : (jsTrim s).length ≤ 50 := by omega
          have hs : ¬(s = "") := fun hh => h1 (Or.inl hh)
          simp [V2.validateProjectName, h1, h3, h4, hne, hok, hle, hs]
  · intro s
    by_cases h1 : s = "" ∨ jsTrim s = ""
    · exact Or.inr ⟨"Project name is required",
        by simp [V2.validateProjectName, h1], by decide⟩
    · by_cases h3 : projectNameOk (jsTrim s) = false
      · exact Or.inr
          ⟨"Project name can only contain letters, numbers, hyphens, and underscores",
            by simp [V2.validateProjectName, h1, h3], by decide⟩
      · by_cases h4 : (jsTrim s).length > 50
        · exact Or.inr ⟨"Project name must be 50 characters or less",
            by simp [V2.validateProjectName, h1, h3, h4], by decide⟩
        · exact Or.inl (by simp [V2.validateProjectName, h1, h3, h4])
  · intro s
    by_cases h1 : s = "" ∨ jsTrim s = ""
    · simp [V1.validateProjectName, h1, hblank s h1]
    · have hne : jsTrim s ≠ "" := fun hh => h1 (Or.inr hh)
      have hs : ¬(s = "") := fun hh => h1 (Or.inl hh)
      simp [V1.validateProjectName, h1, hne, hs]

lemma jsOrString_some {t : String} (h : t ≠ "") (b : String) : jsOrString (some t) b = t := by
  simp [jsOrString, h]

/-- C3: in both variants, when the destination path already exists at
validation time the run exits with code 1 and the fetch collaborator is
never invoked (no coordinate is ever handed to it). -/
theorem c3_existing_destination_aborts_before_fetch :
    (∀ (w : World2) (pn tpl : Option String) (ans : Answers),
      w.promptOk = true → w.destHas = true →
      (V2.createProject w pn tpl ans).exitCode = 1 ∧
      (V2.createProject w pn tpl ans).fetchCoord = none) ∧
    (∀ (w : World1) (pn tpl : Option String) (ans : Answers),
      w.promptOk = true → w.destHas = true →
      (V1.createProject w pn tpl ans).exitCode = 1 ∧
      (V1.createProject w pn tpl ans).fetchCoord = none) := by
  constructor <;> intro w pn tpl ans h1 h2 <;>
    simp [V1.createProject, V2.createProject, h1, h2]

theorem c3_witness :
    ((V2.createProject w2dest (some "app") (some "base") ansBase).exitCode = 1 ∧
      (V2.createProject w2dest (some "app") (some "base") ansBase).fetchCoord = none) ∧
    ((V1.createProject w1dest (some "app") (some "base") ansBase).exitCode = 1 ∧
      (V1.createProject w1dest (some "app") (some "base") ansBase).fetchCoord = none) :=
  ⟨c3_existing_destination_aborts_before_fetch.1 w2dest _ _ _ rfl rfl,
    c3_existing_destination_aborts_before_fetch.2 w1dest _ _ _ rfl rfl⟩

/-- C2, counterexample: in the first variant a failed fetch that wrote files
leaves the destination in place, and no removal or manual-cleanup warning is
ever emitted, contradicting the claimed cleanup invariant. -/
theorem c2_counterexample :
    (V1.createProject w1fail (some "app") (some "base") ansBase).destAtEnd = true ∧
    Ev.warnManualCleanup ∉ (V1.createProject w1fail (some "app") (some "base") ansBase).events ∧
    Ev.cleanupDone ∉ (V1.createProject w1fail (some "app") (some "base") ansBase).events ∧
    (V1.createProject w1fail (some "app") (some "base") ansBase).exitCode = 1 := by decide

/-- C2 (amended): in the second variant, when the fetch fails after the
guard passed, the destination does not exist afterwards or (when the removal
itself failed) a manual-cleanup warning was emitted, the fetch error is
reported and the exit code is 1; the first variant performs no cleanup at
all — after a failed fetch the destination exists exactly when the failed
clone wrote it, no manual-cleanup warning is emitted, and the error is
still reported with exit code 1. -/
theorem c2_fetch_failure_cleanup :
    (∀ (w : World2) (pn tpl : Option String) (ans : Answers),
      w.promptOk = true → w.destHas = false → w.parentWritable = true → w.fetchOk = false →
      ((V2.createProject w pn tpl ans).destAtEnd = false ∨
        Ev.warnManualCleanup ∈ (V2.createProject w pn tpl ans).events) ∧
      Ev.errorReported ∈ (V2.createProject w pn tpl ans).events ∧
      (V2.createProject w pn tpl ans).exitCode = 1) ∧
    (∀ (w : World1) (pn tpl : Option String) (ans : Answers),
      w.promptOk = true → w.destHas = false →
      w.templateDirHas (V1.validateTemplate w.fs tpl) = true → w.fetchOk = false →
      (V1.createProject w pn tpl ans).destAtEnd = w.fetchWrote ∧
      Ev.warnManualCleanup ∉ (V1.createProject w pn tpl ans).events ∧
      Ev.errorReported ∈ (V1.createProject w pn tpl ans).events ∧
      (V1.createProject w pn tpl ans).exitCode = 1) := by
  constructor
  · intro w pn tpl ans h1 h2 h3 h4
    cases h5 : w.fetchWrote <;> cases h6 : w.cleanupOk <;>
      simp [V2.createProject, h1, h2, h3, h4, h5, h6]
  · intro w pn tpl ans h1 h2 h3 h4
    refine ⟨?_, (V1.no_cleanup w pn tpl ans).2, ?_, ?_⟩ <;>
      simp [V1.createProject, h1, h2, h3, h4]

theorem c2_witness :
    ((V2.createProject w2fail (some "app") (some "base") ansBase).destAtEnd = false ∨
      Ev.warnManualCleanup ∈
        (V2.createProject w2fail (some "app") (some "base") ansBase).events) ∧
    Ev.errorReported ∈ (V1.createProject w1fail (some "app") (some "base") ansBase).events :=
  ⟨(c2_fetch_failure_cleanup.1 w2fail (some "app") (some "base") ansBase rfl rfl rfl rfl).1,
    (c2_fetch_failure_cleanup.2 w1fail (some "app") (some "base") ansBase rfl rfl
      (by decide) rfl).2.2.1⟩

/-- C4, counterexample: a run of the first variant reaches the fetch with no
parent-writability check ever performed (and no not-writable error
possible), contradicting the claim that both guard checks complete before
the fetch begins. -/
theorem c4_counterexample :
    (V1.createProject w1ok (some "app") (some "base") ansBase).fetchCoord =
      some "fraanlol/template-base" ∧
    Ev.checkedWritableOk ∉ (V1.createProject w1ok (some "app") (some "base") ansBase).events ∧
    Ev.errNotWritable ∉ (V1.createProject w1ok (some "app") (some "base") ansBase).events := by
  decide

/-- C4 (amended): the second variant's guard performs, in order, the
existence check (failing with the already-exists error and exit 1, fetch
never invoked) and then the parent-writability check (failing with the
not-writable error and exit 1, fetch never invoked), and both passed checks
precede the fetch start in every fetching run; the first variant performs
no writability check at all. -/
theorem c4_guard_checks_order :
    (∀ (w : World2) (pn tpl : Option String) (ans : Answers),
      w.promptOk = true → w.destHas = true →
      (V2.createProject w pn tpl ans).exitCode = 1 ∧
      (V2.createProject w pn tpl ans).fetchCoord = none ∧
      Ev.errAlreadyExists (jsOrString pn ans.projectName) ∈
        (V2.createProject w pn tpl ans).events) ∧
    (∀ (w : World2) (pn tpl : Option String) (ans : Answers),
      w.promptOk = true → w.destHas = false → w.parentWritable = false →
      (V2.createProject w pn tpl ans).exitCode = 1 ∧
      (V2.createProject w pn tpl ans).fetchCoord = none ∧
      Ev.checkedExistsOk ∈ (V2.createProject w pn tpl ans).events ∧
      Ev.errNotWritable ∈ (V2.createProject w pn tpl ans).events) ∧
    (∀ (w : World2) (pn tpl : Option String) (ans : Answers) (c : String),
      (V2.createProject w pn tpl ans).fetchCoord = some c →
      [Ev.checkedExistsOk, Ev.checkedWritableOk, Ev.fetchStarted c] <:+:
        (V2.createProject w pn tpl ans).events) ∧
    (∀ (w : World1) (pn tpl : Option String) (ans : Answers),
      Ev.checkedWritableOk ∉ (V1.createProject w pn tpl ans).events ∧
      Ev.errNotWritable ∉ (V1.createProject w pn tpl ans).events) := by
  refine ⟨?_, ?_, fun w pn tpl ans c h => V2.guard_before_fetch w pn tpl ans h,
    V1.no_writable_check⟩
  · intro w pn tpl ans h1 h2
    simp [V2.createProject, h1, h2]
  · intro w pn tpl ans h1 h2 h3
    simp [V2.createProject, h1, h2, h3]

theorem c4_witness :
    [Ev.checkedExistsOk, Ev.checkedWritableOk,
      Ev.fetchStarted "fraanlol/template-react-base"] <:+:
      (V2.createProject w2ok (some "app") (some "base") ansBase).events :=
  c4_guard_checks_order.2.2.1 w2ok (some "app") (some "base") ansBase
    "fraanlol/template-react-base" (by decide)

/-- C7, counterexample: in the first variant the runs resolving "redux" and
"base" hand the fetch collaborator the same coordinate
"fraanlol/template-base" — distinct resolved templates do not produce
distinct coordinates, and "redux" fetches the base coordinate. -/
theorem c7_counterexample :
    (V1.createProject w1ok (some "app") (some "redux") ansBase).finalTemplate =
      some "redux" ∧
    (V1.createProject w1ok (some "app") (some "base") ansBase).finalTemplate =
      some "base" ∧
    (V1.createProject w1ok (some "app") (some "redux") ansBase).fetchCoord =
      (V1.createProject w1ok (some "app") (some "base") ansBase).fetchCoord ∧
    (V1.createProject w1ok (some "app") (some "redux") ansBase).fetchCoord =
      some "fraanlol/template-base" := by decide

/-- C7 (amended): in the second variant the coordinate handed to the fetch
collaborator is the fixed namespace `fraanlol/template-react-` composed with
the resolved template, an injective derivation; the first variant always
hands over the fixed coordinate `fraanlol/template-base` regardless of the
resolved template. -/
theorem c7_fetch_coordinate :
    (∀ (w : World2) (pn tpl : Option String) (ans : Answers) (c : String),
      (V2.createProject w pn tpl ans).fetchCoord = some c →
      ∃ t, (V2.createProject w pn tpl ans).finalTemplate = some t ∧
        c = "fraanlol/template-react-" ++ t) ∧
    (∀ t1 t2 : String,
      "fraanlol/template-react-" ++ t1 = "fraanlol/template-react-" ++ t2 → t1 = t2) ∧
    (∀ (w : World1) (pn tpl : Option String) (ans : Answers) (c : String),
      (V1.createProject w pn tpl ans).fetchCoord = some c →
      c = "fraanlol/template-base") := by
  refine ⟨fun w pn tpl ans c h => V2.fetchCoord_eq w pn tpl ans h, ?_,
    fun w pn tpl ans c h => V1.fetchCoord_fixed w pn tpl ans h⟩
  intro t1 t2 h
  have hd := congrArg String.data h
  simp only [String.data_append] at hd
  obtain ⟨l1⟩ := t1
  obtain ⟨l2⟩ := t2
  exact congrArg String.mk (List.append_cancel_left hd)

theorem c7_witness :
    ∃ t, (V2.createProject w2ok (some "app") (some "redux") ansBase).finalTemplate =
      some t ∧ "fraanlol/template-react-redux" = "fraanlol/template-react-" ++ t :=
  c7_fetch_coordinate.1 w2ok _ _ _ "fraanlol/template-react-redux" (by decide)

/-- C10, counterexample: with `--template Redux` (non-empty, not in the
allow-list) the template prompt is shown, yet the final template is
"redux" — `validateTemplate` of the option value after normalization — not
the fallback "base" the claim asserts. -/
theorem c10_counterexample :
    ("Redux" : String) ∉ AVAILABLE_TEMPLATES ∧
    Ev.promptTemplate ∈
      (V2.createProject w2ok (some "app") (some "Redux") ansBase).events ∧
    (V2.createProject w2ok (some "app") (some "Redux") ansBase).finalTemplate =
      some "redux" ∧
    (V2.createProject w2ok (some "app") (some "Redux") ansBase).finalTemplate ≠
      some "base" := by decide

/-- C10 (amended): when the --template option is a non-empty string outside
the allow-list, the template prompt is displayed, but the truthy option
value is kept in preference to the prompt answer: the final template is
`validateTemplate` of the option value whatever the answers are, and it is
the fallback "base" whenever the option's trimmed lower-cased form is also
outside the allow-list. -/
theorem c10_truthy_invalid_option_discards_prompt_answer :
    ∀ (w : World2) (pn : Option String) (t : String) (ans : Answers),
      w.promptOk = true → t ≠ "" → t ∉ AVAILABLE_TEMPLATES →
      templatePromptShown (some t) = true ∧
      Ev.promptTemplate ∈ (V2.createProject w pn (some t) ans).events ∧
      (V2.createProject w pn (some t) ans).finalTemplate =
        some (V2.validateTemplate (some t)) ∧
      (normalizeTemplate t ∉ AVAILABLE_TEMPLATES →
        (V2.createProject w pn (some t) ans).finalTemplate = some "base") := by
  intro w pn t ans h1 h2 h3
  have hshown : templatePromptShown (some t) = true := by
    simp [templatePromptShown, h3]
  have hfin : (V2.createProject w pn (some t) ans).finalTemplate =
      some (V2.validateTemplate (some t)) := by
    rw [V2.finalTemplate_eq w pn (some t) ans h1, jsOrString_some h2]
  refine ⟨hshown,
    V2.mem_events_of_mem_promptEvs w pn (some t) ans h1 (promptTemplate_mem_promptEvs hshown),
    hfin, ?_⟩
  intro hnm
  rw [hfin, V2.validateTemplate_not_mem hnm]

theorem c10_witness :
    (V2.createProject w2ok (some "app") (some "evil") ansBase).finalTemplate =
      some "base" :=
  (c10_truthy_invalid_option_discards_prompt_answer w2ok (some "app") "evil" ansBase
    rfl (by decide) (by decide)).2.2.2 (by decide)

end ReactCLI
